import Mathlib

/-!
Shallow embedding of the dbdiscord lobby-monitoring core (three bot variants:
src/index.js, src/unnamed/part_000, src/unnamed/part_001) and proofs of the
specification claims about it.

Modelling conventions:
* JS millisecond timestamps are `Int`; player sizes, monetary values and the
  oracle rate are `ℚ` (ordered-field comparisons, no rounding involved in the
  claims' code paths).
* JS string fields that participate in truthiness tests (`p.privyId || p.id`)
  are plain `String`s with `""` standing for an absent/falsy value; optional
  numeric fields (`typeof x === 'number'` guards) are `Option`.
* The global `lobbyCache`'s entry for a single lobby key is threaded explicitly
  as an `Option Snapshot`; the network is an explicit `FetchResult` argument
  and every function reports how many network calls it made.
-/

namespace DbDiscord

/-- A player record as delivered by the upstream players endpoint, with the
USD value that `fetchLobbyPlayers` attaches at fetch time.  `privyId`, `id`
and `name` use `""` for a JS-falsy (absent) value. -/
structure Player where
  privyId : String
  id : String
  name : String
  size : Option ℚ
  monetaryValue : Option ℚ
  usdFromSol : Option ℚ
deriving DecidableEq, Repr

/-- JS `p.privyId || p.id`: the preferred stable identifier with fallback. -/
def effId (p : Player) : String :=
  if p.privyId = "" then p.id else p.privyId

/-- JS `p.name || p.privyId || p.id || 'Unknown'` (display fallback chain). -/
def displayName (p : Player) : String :=
  if p.name = "" then
    (if p.privyId = "" then (if p.id = "" then "Unknown" else p.id) else p.privyId)
  else p.name

/-- JS `Math.round`: round half toward positive infinity. -/
def jsRound (q : ℚ) : Int := ⌊q + 1/2⌋

/-- The active-player predicate of the index.js/part_001 watch evaluator
(`processWatches`, src/index.js lines 1083-1085):
`p => typeof p.size === 'number' && p.size > 3`. -/
def watchIsActive (p : Player) : Bool :=
  match p.size with
  | some s => decide (s > 3)
  | none => false

/-- The active-player predicate of the index.js/part_001 join-diff detector
(`processJoinAlerts`, src/index.js lines 995-997):
`p => typeof p.size === 'number' && p.size > 3`. -/
def joinIsActive (p : Player) : Bool :=
  match p.size with
  | some s => decide (s > 3)
  | none => false

/-- A cached lobby snapshot (`lobbyCache` entry).  `lastFetched` is the local
fetch timestamp (`new Date()` at store time); `none` models a falsy value. -/
structure Snapshot where
  serverId : String
  playerCount : Int
  players : List Player
  timestamp : Int
  lastFetched : Option Int
  noApi : Bool
deriving DecidableEq, Repr

/-- A lobby definition from the static `LOBBIES` table.  `url = none` models
the `url: null` / `noApi: true` entry (EU $5). -/
structure LobbyDef where
  key : String
  region : String
  lobby : Nat
  label : String
  url : Option String
deriving DecidableEq, Repr

/-- Body of a players-endpoint response (`res.data` when non-null).  Optional
fields mirror the defensive `typeof`/`Array.isArray` checks in the source. -/
structure ApiData where
  success : Bool
  serverId : String
  playerCount : Option Int
  players : Option (List Player)
  timestamp : Option Int
deriving DecidableEq, Repr

/-- Outcome of one `axios.get` on a players endpoint: a thrown network error
(timeout / non-2xx), or a response carrying `res.data` (possibly null). -/
inductive FetchResult where
  | netError : FetchResult
  | ok : Option ApiData → FetchResult
deriving DecidableEq, Repr

/-- Result of one `fetchLobbyPlayers` / `getLobbySnapshot` invocation: the
value returned to the caller, the new cache entry for the lobby's key, and
the number of network requests issued. -/
structure FetchOut where
  result : Option Snapshot
  cacheEntry : Option Snapshot
  netCalls : Nat
deriving DecidableEq, Repr

/-- USD attachment done per player at fetch time (src/index.js lines 129-138):
`usdFromSol = p.monetaryValue * solPriceUsd` when `monetaryValue` is a number
and the cached price is truthy and positive, else null. -/
def attachUsd (price : Option ℚ) (p : Player) : Player :=
  match p.monetaryValue, price with
  | some m, some r => if r > 0 then { p with usdFromSol := some (m * r) } else { p with usdFromSol := none }
  | _, _ => { p with usdFromSol := none }

/-- JS `x || fallback` on an optional numeric field where `0` is falsy. -/
def jsNumOr (x : Option Int) (fallback : Int) : Int :=
  match x with
  | some v => if v = 0 then fallback else v
  | none => fallback

/-- The placeholder snapshot synthesized for a lobby with no API
(src/index.js lines 107-114). -/
def noApiSnapshot (lobbyDef : LobbyDef) (now : Int) : Snapshot :=
  { serverId := lobbyDef.key, playerCount := 0, players := [],
    timestamp := now, lastFetched := some now, noApi := true }

/-- The snapshot built and stored on a successful fetch (src/index.js lines
126-147): missing player list becomes empty, missing count is derived from
the list length, USD values are attached from the current oracle rate. -/
def fetchedSnapshot (lobbyDef : LobbyDef) (price : Option ℚ) (now : Int)
    (data : ApiData) : Snapshot :=
  { serverId := if data.serverId = "" then lobbyDef.key else data.serverId,
    playerCount := data.playerCount.getD (((data.players.getD []).length : Int)),
    players := (data.players.getD []).map (attachUsd price),
    timestamp := jsNumOr data.timestamp now,
    lastFetched := some now,
    noApi := false }

/-- Embedding of `fetchLobbyPlayers` (src/index.js lines 104-155, src/unnamed/part_001
lines 132-183).  `now` is `Date.now()`, `entry` the current cache entry for
`lobbyDef.key`, `response` what the network would deliver. -/
def fetchLobbyPlayers (lobbyDef : LobbyDef) (price : Option ℚ) (now : Int)
    (entry : Option Snapshot) (response : FetchResult) : FetchOut :=
  match lobbyDef.url with
  | none =>
      { result := some (noApiSnapshot lobbyDef now),
        cacheEntry := some (noApiSnapshot lobbyDef now), netCalls := 0 }
  | some _ =>
      match response with
      | FetchResult.netError => { result := none, cacheEntry := entry, netCalls := 1 }
      | FetchResult.ok none => { result := none, cacheEntry := entry, netCalls := 1 }
      | FetchResult.ok (some data) =>
          if data.success then
            { result := some (fetchedSnapshot lobbyDef price now data),
              cacheEntry := some (fetchedSnapshot lobbyDef price now data), netCalls := 1 }
          else { result := none, cacheEntry := entry, netCalls := 1 }

/-- Embedding of `getLobbySnapshot` (src/index.js lines 157-163): return the cached entry
when it exists, has a fetch timestamp and is under 5000 ms old; otherwise
delegate to `fetchLobbyPlayers`. -/
def getLobbySnapshot (lobbyDef : LobbyDef) (price : Option ℚ) (now : Int)
    (entry : Option Snapshot) (response : FetchResult) : FetchOut :=
  match entry with
  | some existing =>
      match existing.lastFetched with
      | some t =>
          if now - t < 5000 then
            { result := some existing, cacheEntry := entry, netCalls := 0 }
          else fetchLobbyPlayers lobbyDef price now entry response
      | none => fetchLobbyPlayers lobbyDef price now entry response
  | none => fetchLobbyPlayers lobbyDef price now entry response

/-- A sequence of `getLobbySnapshot` invocations threading the cache entry,
each with its own call time and prospective network response. -/
def runGetSnapshots (lobbyDef : LobbyDef) (price : Option ℚ) :
    Option Snapshot → List (Int × FetchResult) → List FetchOut
  | _, [] => []
  | entry, (now, resp) :: rest =>
      let out := getLobbySnapshot lobbyDef price now entry resp
      out :: runGetSnapshots lobbyDef price out.cacheEntry rest

/-- A tenant watch rule (`cfg.watches` entry). -/
structure Watch where
  id : Nat
  lobbyKey : String
  threshold : Int
  intervalMinutes : Int
  lastAlertAt : Option Int
deriving DecidableEq, Repr

/-- One watch evaluation of the index.js / part_001 `processWatches` loop body
(src/index.js lines 1079-1104): guard on a usable snapshot, count active
players (size > 3), compare with the threshold, and apply the cooldown gate,
setting `lastAlertAt` to the current time on firing.  Returns
(fired?, updated watch). -/
def processWatch (snap : Option Snapshot) (w : Watch) (now : Int) : Bool × Watch :=
  match snap with
  | none => (false, w)
  | some s =>
      if s.noApi then (false, w)
      else
        let activeCount : Int := ((s.players.filter watchIsActive).length : Int)
        if activeCount < w.threshold then (false, w)
        else
          let intervalMs := w.intervalMinutes * 60 * 1000
          match w.lastAlertAt with
          | none => (true, { w with lastAlertAt := some now })
          | some last =>
              if now - last ≥ intervalMs then (true, { w with lastAlertAt := some now })
              else (false, w)

/-- One watch evaluation of the part_000 `processWatches` loop body
(src/unnamed/part_000 lines 789-807): the count compared against the
threshold is `snapshot.playerCount || 0`, the raw reported player count. -/
def processWatchV0 (snap : Option Snapshot) (w : Watch) (now : Int) : Bool × Watch :=
  match snap with
  | none => (false, w)
  | some s =>
      let playerCount : Int := if s.playerCount = 0 then 0 else s.playerCount
      if playerCount < w.threshold then (false, w)
      else
        let intervalMs := w.intervalMinutes * 60 * 1000
        match w.lastAlertAt with
        | none => (true, { w with lastAlertAt := some now })
        | some last =>
            if now - last ≥ intervalMs then (true, { w with lastAlertAt := some now })
            else (false, w)

/-- Claim C1: for a present, supported snapshot with a player list, a watch
fires exactly when the active count meets the threshold and the cooldown has
elapsed (`lastAlertAt` null or `now - lastAlertAt ≥ intervalMinutes * 60000`);
on firing `lastAlertAt` becomes `now`; below threshold (or when suppressed by
the cooldown) the watch state is unchanged, so it is never consumed. -/
theorem c1_watch_cooldown (s : Snapshot) (w : Watch) (now : Int)
    (hapi : s.noApi = false) :
    (((s.players.filter watchIsActive).length : Int) ≥ w.threshold →
      (((processWatch (some s) w now).1 = true) ↔
        (w.lastAlertAt = none ∨
          ∃ last, w.lastAlertAt = some last ∧ now - last ≥ w.intervalMinutes * 60000))
      ∧ ((processWatch (some s) w now).1 = true →
          (processWatch (some s) w now).2 = { w with lastAlertAt := some now })
      ∧ ((processWatch (some s) w now).1 = false →
          (processWatch (some s) w now).2 = w))
    ∧ (((s.players.filter watchIsActive).length : Int) < w.threshold →
        processWatch (some s) w now = (false, w)) := by
  unfold processWatch
  simp only [hapi, Bool.false_eq_true, if_false]
  constructor
  · intro hge
    rw [if_neg (not_lt.mpr hge)]
    cases hla : w.lastAlertAt with
    | none => simp
    | some last =>
        dsimp only
        by_cases hcd : now - last ≥ w.intervalMinutes * 60 * 1000
        · rw [if_pos hcd]
          refine ⟨?_, fun _ => rfl, fun h => by simp at h⟩
          simp only [true_iff]
          exact Or.inr ⟨last, rfl, by nlinarith [hcd]⟩
        · rw [if_neg hcd]
          refine ⟨?_, fun h => by simp at h, fun _ => rfl⟩
          simp only [Bool.false_eq_true, false_iff]
          intro h
          rcases h with h | ⟨l, hl, hge2⟩
          · exact Option.noConfusion h
          · injection hl with hl'
            subst hl'
            exact hcd (by nlinarith [hge2])
  · intro hlt
    rw [if_pos hlt]

/-- A concrete active player (size 10) with a primary identifier, for witnesses. -/
def wPlayer (pid : String) : Player :=
  { privyId := pid, id := "", name := "", size := some 10,
    monetaryValue := none, usdFromSol := none }

/-- Concrete snapshot with five active players, for the C1 witness. -/
def wS1 : Snapshot :=
  { serverId := "us-5", playerCount := 5,
    players := [wPlayer "a", wPlayer "b", wPlayer "c", wPlayer "d", wPlayer "e"],
    timestamp := 0, lastFetched := some 0, noApi := false }

/-- Concrete watch (threshold 5, interval 2 min, never fired), for the C1 witness. -/
def wW1 : Watch :=
  { id := 1, lobbyKey := "us-5", threshold := 5, intervalMinutes := 2, lastAlertAt := none }

/-- Witness for C1: five active players meet threshold 5 with `lastAlertAt`
null, so the watch fires and `lastAlertAt` becomes the current time. -/
theorem c1_watch_cooldown_witness :
    wS1.noApi = false ∧ (processWatch (some wS1) wW1 1000).1 = true
      ∧ (processWatch (some wS1) wW1 1000).2 = { wW1 with lastAlertAt := some 1000 } := by
  have h := c1_watch_cooldown wS1 wW1 1000 rfl
  have hge : ((wS1.players.filter watchIsActive).length : Int) ≥ wW1.threshold := by decide
  have h1 := (h.1 hge).1.mpr (Or.inl rfl)
  exact ⟨rfl, h1, (h.1 hge).2.1 h1⟩

/-- JS `Set.prototype.add` on an insertion-ordered list representation. -/
def jsSetAdd (acc : List String) (x : String) : List String :=
  if x ∈ acc then acc else acc ++ [x]

/-- JS `new Set(array)`: deduplicate keeping first occurrences, in order. -/
def jsSet (l : List String) : List String := l.foldl jsSetAdd []

theorem mem_foldl_jsSetAdd (l acc : List String) (x : String) :
    x ∈ l.foldl jsSetAdd acc ↔ x ∈ acc ∨ x ∈ l := by
  induction l generalizing acc with
  | nil => simp
  | cons a t ih =>
      rw [List.foldl_cons, ih]
      unfold jsSetAdd
      by_cases ha : a ∈ acc
      · rw [if_pos ha]
        constructor
        · rintro (hx | hx)
          · exact Or.inl hx
          · exact Or.inr (List.mem_cons_of_mem _ hx)
        · rintro (hx | hx)
          · exact Or.inl hx
          · rcases List.mem_cons.mp hx with rfl | hx
            · exact Or.inl ha
            · exact Or.inr hx
      · rw [if_neg ha]
        simp only [List.mem_append, List.mem_singleton, List.mem_cons]
        tauto

theorem mem_jsSet (l : List String) (x : String) : x ∈ jsSet l ↔ x ∈ l := by
  unfold jsSet
  rw [mem_foldl_jsSetAdd]
  simp

/-- The active players considered by the index.js/part_001 join-diff detector
(src/index.js lines 995-998). -/
def joinActivePlayers (s : Snapshot) : List Player := s.players.filter joinIsActive

/-- The current active-identifier set (src/index.js lines 1006-1008):
`new Set(activePlayers.map(p => p.privyId || p.id).filter(Boolean))`. -/
def joinCurrentIds (s : Snapshot) : List String :=
  jsSet (((joinActivePlayers s).map effId).filter (fun y => y ≠ ""))

/-- One (tenant, lobby) step of the index.js/part_001 `processJoinAlerts` loop
body (src/index.js lines 991-1025): guard on a usable snapshot, reset the
last-seen set when no player is active, otherwise report the players whose
identifier is new and store the current identifier set.  Returns
(new joins, new stored last-seen set). -/
def processJoinLobby (snap : Option Snapshot) (lastSeen : List String) :
    List Player × List String :=
  match snap with
  | none => ([], lastSeen)
  | some s =>
      if s.noApi then ([], lastSeen)
      else if (joinActivePlayers s).length = 0 then ([], [])
      else
        ((joinCurrentIds s).filterMap (fun i =>
            if i ∈ lastSeen then none
            else (joinActivePlayers s).find? (fun p => effId p = i)),
         joinCurrentIds s)

/-- Claim C2: on a supported snapshot, when the active-identifier set is
non-empty the reported joins are exactly the identifiers in the current set
but not in the stored set (each resolved to an active player of the
snapshot), and the stored set is replaced by the current set; when the active
set is empty the stored set is reset to empty and nothing is reported. -/
theorem c2_join_diff (s : Snapshot) (lastSeen : List String) (hapi : s.noApi = false) :
    (joinCurrentIds s ≠ [] →
       ((processJoinLobby (some s) lastSeen).1.map effId).toFinset
           = (joinCurrentIds s).toFinset \ lastSeen.toFinset
       ∧ (∀ p ∈ (processJoinLobby (some s) lastSeen).1, p ∈ joinActivePlayers s)
       ∧ (processJoinLobby (some s) lastSeen).2 = joinCurrentIds s)
    ∧ (joinCurrentIds s = [] → processJoinLobby (some s) lastSeen = ([], [])) := by
  by_cases hap : (joinActivePlayers s).length = 0
  · have hemp : joinActivePlayers s = [] := List.length_eq_zero.mp hap
    have hcur : joinCurrentIds s = [] := by
      unfold joinCurrentIds
      rw [hemp]
      rfl
    constructor
    · intro hne; exact absurd hcur hne
    · intro _
      unfold processJoinLobby
      simp [hapi, hap]
  · unfold processJoinLobby
    simp only [hapi, Bool.false_eq_true, if_false, hap]
    constructor
    · intro _
      refine ⟨?_, ?_, by simp⟩
      · ext x
        simp only [List.mem_toFinset, Finset.mem_sdiff, List.mem_map, List.mem_filterMap]
        constructor
        · rintro ⟨p, ⟨i, hi, hf⟩, rfl⟩
          by_cases hmem : i ∈ lastSeen
          · rw [if_pos hmem] at hf
            exact absurd hf (by simp)
          · rw [if_neg hmem] at hf
            have hpred := List.find?_some hf
            have heq : effId p = i := by simpa using hpred
            rw [heq]
            exact ⟨hi, hmem⟩
        · rintro ⟨hi, hmem⟩
          have hi' := hi
          unfold joinCurrentIds at hi'
          rw [mem_jsSet] at hi'
          rw [List.mem_filter] at hi'
          obtain ⟨hmap, _⟩ := hi'
          obtain ⟨p, hp, hpe⟩ := List.mem_map.mp hmap
          have hsome : ((joinActivePlayers s).find? (fun q => effId q = x)).isSome := by
            rw [List.find?_isSome]
            exact ⟨p, hp, by simp [hpe]⟩
          obtain ⟨q, hq⟩ := Option.isSome_iff_exists.mp hsome
          refine ⟨q, ⟨x, hi, ?_⟩, ?_⟩
          · rw [if_neg hmem]
            exact hq
          · have := List.find?_some hq
            simpa using this
      · intro p hp
        rcases List.mem_filterMap.mp hp with ⟨i, _, hf⟩
        by_cases hmem : i ∈ lastSeen
        · rw [if_pos hmem] at hf
          exact absurd hf (by simp)
        · rw [if_neg hmem] at hf
          exact List.mem_of_find?_eq_some hf
    · intro hcur
      simp [hcur]

/-- Concrete snapshot whose active identifiers are {B, C}, for the C2 witness. -/
def wS2 : Snapshot :=
  { serverId := "us-1", playerCount := 2,
    players := [wPlayer "B", wPlayer "C"],
    timestamp := 0, lastFetched := some 0, noApi := false }

/-- Witness for C2: last-seen {A, B} and current active identities {B, C}
yield exactly the set difference {C} as reported joins, and the stored set is
replaced by the current identifier set. -/
theorem c2_join_diff_witness :
    wS2.noApi = false ∧ joinCurrentIds wS2 ≠ []
      ∧ ((processJoinLobby (some wS2) ["A", "B"]).1.map effId).toFinset
          = (joinCurrentIds wS2).toFinset \ (["A", "B"] : List String).toFinset
      ∧ (processJoinLobby (some wS2) ["A", "B"]).2 = joinCurrentIds wS2 := by
  have h := c2_join_diff wS2 ["A", "B"] rfl
  have hne : joinCurrentIds wS2 ≠ [] := by decide
  obtain ⟨hfin, _, hstore⟩ := h.1 hne
  exact ⟨rfl, hne, hfin, hstore⟩

theorem mem_joinCurrentIds_ne_empty {s : Snapshot} {x : String}
    (hx : x ∈ joinCurrentIds s) : x ≠ "" := by
  unfold joinCurrentIds at hx
  rw [mem_jsSet, List.mem_filter] at hx
  simpa using hx.2

theorem effId_ne_empty_cases {p : Player} (h : effId p ≠ "") :
    p.privyId ≠ "" ∨ p.id ≠ "" := by
  unfold effId at h
  by_cases hp : p.privyId = ""
  · rw [if_pos hp] at h
    exact Or.inr h
  · exact Or.inl hp

/-- Claim C10: assuming the stored last-seen set contains only truthy (non
empty) identifiers, after a join-diff step every stored identifier is still
truthy and every reported join carries a truthy identifier (primary or
secondary present); a player lacking both identifier fields is never
reported. -/
theorem c10_truthy_identifiers (snap : Option Snapshot) (lastSeen : List String)
    (h : "" ∉ lastSeen) :
    "" ∉ (processJoinLobby snap lastSeen).2
    ∧ (∀ p ∈ (processJoinLobby snap lastSeen).1,
        effId p ≠ "" ∧ (p.privyId ≠ "" ∨ p.id ≠ "")) := by
  cases snap with
  | none => exact ⟨h, by simp [processJoinLobby]⟩
  | some s =>
      by_cases hapi : s.noApi
      · unfold processJoinLobby
        dsimp only
        rw [if_pos hapi]
        exact ⟨h, by simp⟩
      · by_cases hap : (joinActivePlayers s).length = 0
        · unfold processJoinLobby
          dsimp only
          rw [if_neg hapi, if_pos hap]
          exact ⟨by simp, by simp⟩
        · unfold processJoinLobby
          dsimp only
          rw [if_neg hapi, if_neg hap]
          dsimp only
          constructor
          · intro hmem
            exact mem_joinCurrentIds_ne_empty hmem rfl
          · intro p hp
            rcases List.mem_filterMap.mp hp with ⟨i, hi, hf⟩
            by_cases hmem : i ∈ lastSeen
            · rw [if_pos hmem] at hf
              exact absurd hf (by simp)
            · rw [if_neg hmem] at hf
              have hpe : effId p = i := by simpa using List.find?_some hf
              have hine := mem_joinCurrentIds_ne_empty hi
              rw [← hpe] at hine
              exact ⟨hine, effId_ne_empty_cases hine⟩

/-- A player with neither identifier field set, for the C10 witness. -/
def wP3 : Player :=
  { privyId := "", id := "", name := "anon", size := some 10,
    monetaryValue := none, usdFromSol := none }

/-- Concrete snapshot mixing an identified and an unidentified active player,
for the C10 witness. -/
def wS3 : Snapshot :=
  { serverId := "us-1", playerCount := 2, players := [wPlayer "X", wP3],
    timestamp := 0, lastFetched := some 0, noApi := false }

/-- Witness for C10: starting from an empty last-seen set, the stored set
stays free of empty identifiers and every reported join is truthy, so the
identifier-less player is never reported. -/
theorem c10_truthy_identifiers_witness :
    ("" : String) ∉ ([] : List String)
    ∧ "" ∉ (processJoinLobby (some wS3) []).2
    ∧ ∀ p ∈ (processJoinLobby (some wS3) []).1,
        effId p ≠ "" ∧ (p.privyId ≠ "" ∨ p.id ≠ "") := by
  have h := c10_truthy_identifiers (some wS3) [] (by simp)
  exact ⟨by simp, h.1, h.2⟩

theorem fetchLobbyPlayers_success (lobbyDef : LobbyDef) (price : Option ℚ)
    (now : Int) (entry : Option Snapshot) (d : ApiData) (u : String)
    (hurl : lobbyDef.url = some u) (hsucc : d.success = true) :
    fetchLobbyPlayers lobbyDef price now entry (FetchResult.ok (some d)) =
      { result := some (fetchedSnapshot lobbyDef price now d),
        cacheEntry := some (fetchedSnapshot lobbyDef price now d), netCalls := 1 } := by
  unfold fetchLobbyPlayers
  rw [hurl]
  dsimp only
  rw [if_pos hsucc]

/-- Claim C3: a cached snapshot under 5000 ms old is returned unchanged with
no network call, so two `getLobbySnapshot` calls within the freshness window
(the first of which performs a successful fetch on a cold cache) issue
exactly one network call in total and the second returns the first call's
stored result. -/
theorem c3_cache_freshness (lobbyDef : LobbyDef) (price : Option ℚ) (s : Snapshot)
    (t now t0 t1 : Int) (d : ApiData) (resp1 : FetchResult) (u : String)
    (hfresh : s.lastFetched = some t) (hwin : now - t < 5000)
    (hurl : lobbyDef.url = some u) (hsucc : d.success = true)
    (_ht : t0 ≤ t1) (hwin2 : t1 - t0 < 5000) :
    getLobbySnapshot lobbyDef price now (some s) resp1
        = { result := some s, cacheEntry := some s, netCalls := 0 }
    ∧ (getLobbySnapshot lobbyDef price t0 none (FetchResult.ok (some d))).netCalls = 1
    ∧ (getLobbySnapshot lobbyDef price t1
        (getLobbySnapshot lobbyDef price t0 none (FetchResult.ok (some d))).cacheEntry
        resp1).netCalls = 0
    ∧ (getLobbySnapshot lobbyDef price t1
        (getLobbySnapshot lobbyDef price t0 none (FetchResult.ok (some d))).cacheEntry
        resp1).result
      = (getLobbySnapshot lobbyDef price t0 none (FetchResult.ok (some d))).result := by
  have hfirst : getLobbySnapshot lobbyDef price t0 none (FetchResult.ok (some d)) =
      { result := some (fetchedSnapshot lobbyDef price t0 d),
        cacheEntry := some (fetchedSnapshot lobbyDef price t0 d), netCalls := 1 } := by
    unfold getLobbySnapshot
    exact fetchLobbyPlayers_success lobbyDef price t0 none d u hurl hsucc
  have hsecond : getLobbySnapshot lobbyDef price t1
      (some (fetchedSnapshot lobbyDef price t0 d)) resp1 =
      { result := some (fetchedSnapshot lobbyDef price t0 d),
        cacheEntry := some (fetchedSnapshot lobbyDef price t0 d), netCalls := 0 } := by
    show (if t1 - t0 < 5000 then
            ({ result := some (fetchedSnapshot lobbyDef price t0 d),
               cacheEntry := some (fetchedSnapshot lobbyDef price t0 d),
               netCalls := 0 } : FetchOut)
          else fetchLobbyPlayers lobbyDef price t1
            (some (fetchedSnapshot lobbyDef price t0 d)) resp1) = _
    rw [if_pos hwin2]
  refine ⟨?_, ?_, ?_, ?_⟩
  · unfold getLobbySnapshot
    dsimp only
    rw [hfresh]
    dsimp only
    rw [if_pos hwin]
  · rw [hfirst]
  · rw [hfirst]
    dsimp only
    rw [hsecond]
  · rw [hfirst]
    dsimp only
    rw [hsecond]

/-- Concrete supported lobby for C3/C4 witnesses. -/
def wL1 : LobbyDef :=
  { key := "us-1", region := "us", lobby := 1, label := "US $1", url := some "https://u" }

/-- Concrete unsupported lobby (no endpoint) for the C5 witness. -/
def wL5 : LobbyDef :=
  { key := "eu-5", region := "eu", lobby := 5, label := "EU $5", url := none }

/-- Concrete successful response body for the C3 witness. -/
def wD1 : ApiData :=
  { success := true, serverId := "", playerCount := some 2,
    players := some [wPlayer "a"], timestamp := some 5 }

/-- Witness for C3: a fresh cached snapshot is returned without a network
call, and a cold-cache call at time 0 followed by a call at time 1000 issues
exactly one network request, the second call returning the stored result. -/
theorem c3_cache_freshness_witness :
    wS1.lastFetched = some 0 ∧ wL1.url = some "https://u" ∧ wD1.success = true
    ∧ getLobbySnapshot wL1 none 1000 (some wS1) FetchResult.netError
        = { result := some wS1, cacheEntry := some wS1, netCalls := 0 }
    ∧ (getLobbySnapshot wL1 none 0 none (FetchResult.ok (some wD1))).netCalls = 1
    ∧ (getLobbySnapshot wL1 none 1000
        (getLobbySnapshot wL1 none 0 none (FetchResult.ok (some wD1))).cacheEntry
        FetchResult.netError).netCalls = 0 := by
  have h := c3_cache_freshness wL1 none wS1 0 1000 0 1000 wD1 FetchResult.netError
    "https://u" rfl (by norm_num) rfl rfl (by norm_num) (by norm_num)
  exact ⟨rfl, rfl, rfl, h.1, h.2.1, h.2.2.1⟩

/-- Claim C4: for a supported lobby, a network error, a null body or a
non-success body leaves the cached snapshot exactly as it was and returns
null to the caller. -/
theorem c4_failure_preserves_cache (lobbyDef : LobbyDef) (price : Option ℚ)
    (now : Int) (entry : Option Snapshot) (resp : FetchResult) (u : String)
    (hurl : lobbyDef.url = some u)
    (hfail : resp = FetchResult.netError ∨ resp = FetchResult.ok none
      ∨ ∃ d, resp = FetchResult.ok (some d) ∧ d.success = false) :
    (fetchLobbyPlayers lobbyDef price now entry resp).result = none
    ∧ (fetchLobbyPlayers lobbyDef price now entry resp).cacheEntry = entry := by
  unfold fetchLobbyPlayers
  rw [hurl]
  rcases hfail with rfl | rfl | ⟨d, rfl, hd⟩
  · exact ⟨rfl, rfl⟩
  · exact ⟨rfl, rfl⟩
  · dsimp only
    rw [if_neg (by simp [hd])]
    exact ⟨rfl, rfl⟩

/-- Non-success response body for the C4 witness. -/
def wDbad : ApiData :=
  { success := false, serverId := "", playerCount := some 2,
    players := some [wPlayer "a"], timestamp := some 5 }

/-- Witness for C4: a prior cached snapshot survives a non-success body
untouched and the caller receives null. -/
theorem c4_failure_preserves_cache_witness :
    wL1.url = some "https://u"
    ∧ (FetchResult.ok (some wDbad) = FetchResult.netError
        ∨ FetchResult.ok (some wDbad) = FetchResult.ok none
        ∨ ∃ d, FetchResult.ok (some wDbad) = FetchResult.ok (some d)
            ∧ d.success = false)
    ∧ (fetchLobbyPlayers wL1 none 0 (some wS1)
        (FetchResult.ok (some wDbad))).result = none
    ∧ (fetchLobbyPlayers wL1 none 0 (some wS1)
        (FetchResult.ok (some wDbad))).cacheEntry = some wS1 := by
  have h := c4_failure_preserves_cache wL1 none 0 (some wS1)
    (FetchResult.ok (some wDbad)) "https://u" rfl
    (Or.inr (Or.inr ⟨wDbad, rfl, rfl⟩))
  exact ⟨rfl, Or.inr (Or.inr ⟨wDbad, rfl, rfl⟩), h.1, h.2⟩

/-- Invariant of the cache entry of an unsupported lobby: any stored snapshot
is the zero-count, empty, unsupported-marked placeholder. -/
def noApiEntryInv (e : Option Snapshot) : Prop :=
  ∀ s, e = some s → s.playerCount = 0 ∧ s.players = [] ∧ s.noApi = true

theorem getLobbySnapshot_noApi_step (lobbyDef : LobbyDef) (price : Option ℚ)
    (now : Int) (entry : Option Snapshot) (resp : FetchResult)
    (hurl : lobbyDef.url = none) (hinv : noApiEntryInv entry) :
    (getLobbySnapshot lobbyDef price now entry resp).netCalls = 0
    ∧ (∃ s, (getLobbySnapshot lobbyDef price now entry resp).result = some s
        ∧ s.playerCount = 0 ∧ s.players = [] ∧ s.noApi = true)
    ∧ noApiEntryInv (getLobbySnapshot lobbyDef price now entry resp).cacheEntry := by
  have hfetch : fetchLobbyPlayers lobbyDef price now entry resp =
      { result := some (noApiSnapshot lobbyDef now),
        cacheEntry := some (noApiSnapshot lobbyDef now), netCalls := 0 } := by
    unfold fetchLobbyPlayers
    rw [hurl]
  have hfetchP : noApiEntryInv (some (noApiSnapshot lobbyDef now)) := by
    intro s hs
    injection hs with hs'
    exact hs' ▸ ⟨rfl, rfl, rfl⟩
  unfold getLobbySnapshot
  cases entry with
  | none =>
      rw [hfetch]
      exact ⟨rfl, ⟨noApiSnapshot lobbyDef now, rfl, rfl, rfl, rfl⟩, hfetchP⟩
  | some existing =>
      dsimp only
      obtain ⟨h0, h1, h2⟩ := hinv existing rfl
      cases hlf : existing.lastFetched with
      | none =>
          rw [hfetch]
          exact ⟨rfl, ⟨noApiSnapshot lobbyDef now, rfl, rfl, rfl, rfl⟩, hfetchP⟩
      | some t =>
          dsimp only
          by_cases hfreshb : now - t < 5000
          · rw [if_pos hfreshb]
            exact ⟨rfl, ⟨existing, rfl, h0, h1, h2⟩, hinv⟩
          · rw [if_neg hfreshb, hfetch]
            exact ⟨rfl, ⟨noApiSnapshot lobbyDef now, rfl, rfl, rfl, rfl⟩, hfetchP⟩

/-- Claim C5: for a lobby definition with no fetch endpoint, every
`getLobbySnapshot` invocation in any sequence (from any cache entry
satisfying the unsupported-lobby invariant, in particular the empty startup
entry) returns a zero-count, empty, unsupported-marked snapshot and issues
no network call. -/
theorem c5_unsupported_lobby (lobbyDef : LobbyDef) (price : Option ℚ)
    (calls : List (Int × FetchResult)) (entry : Option Snapshot)
    (hurl : lobbyDef.url = none) (hinv : noApiEntryInv entry) :
    ∀ out ∈ runGetSnapshots lobbyDef price entry calls,
      out.netCalls = 0 ∧ ∃ s, out.result = some s
        ∧ s.playerCount = 0 ∧ s.players = [] ∧ s.noApi = true := by
  induction calls generalizing entry with
  | nil =>
      intro out hmem
      simp [runGetSnapshots] at hmem
  | cons c rest ih =>
      intro out hmem
      obtain ⟨now, resp⟩ := c
      obtain ⟨h0, h1, h2⟩ := getLobbySnapshot_noApi_step lobbyDef price now entry resp hurl hinv
      rw [runGetSnapshots] at hmem
      rcases List.mem_cons.mp hmem with rfl | hmem'
      · exact ⟨h0, h1⟩
      · exact ih _ h2 out hmem'

/-- Witness for C5: a call on the endpoint-less EU $5 lobby from the cold
startup cache returns the unsupported placeholder with zero network calls. -/
theorem c5_unsupported_lobby_witness :
    wL5.url = none ∧ noApiEntryInv none
    ∧ ((getLobbySnapshot wL5 none 0 none FetchResult.netError).netCalls = 0
       ∧ ∃ s, (getLobbySnapshot wL5 none 0 none FetchResult.netError).result = some s
           ∧ s.playerCount = 0 ∧ s.players = [] ∧ s.noApi = true) := by
  have hinv : noApiEntryInv none := fun s hs => Option.noConfusion hs
  have h := c5_unsupported_lobby wL5 none [(0, FetchResult.netError)] none rfl hinv
    (getLobbySnapshot wL5 none 0 none FetchResult.netError)
    (by rw [runGetSnapshots]; exact List.mem_cons_self _ _)
  exact ⟨rfl, hinv, h⟩

/-- Leaderboard page size (src/index.js line 18). -/
def LB_PAGE_SIZE : Nat := 5

/-- The paging core of `buildLbEmbed` (src/index.js lines 277-284 and
303-305): total page count, clamped current page, and the page's players
paired with their 1-based global ranks. -/
structure LbPage where
  totalPages : Nat
  currentPage : Nat
  entries : List (Nat × Player)
deriving DecidableEq, Repr

/-- Paging computation of `buildLbEmbed` (src/index.js lines 277-284):
`totalPages = max(1, ceil(players.length / 5))`, clamp the requested page
into `[0, totalPages - 1]`, slice out the page and rank its entries as
`start + index + 1`. -/
def buildLbPage (players : List Player) (page : Int) : LbPage :=
  let totalPages : Nat := max 1 ((players.length + LB_PAGE_SIZE - 1) / LB_PAGE_SIZE)
  let clampedLow : Int := if page < 0 then 0 else page
  let clamped : Int :=
    if clampedLow > (totalPages : Int) - 1 then (totalPages : Int) - 1 else clampedLow
  let currentPage : Nat := clamped.toNat
  let start := currentPage * LB_PAGE_SIZE
  let pagePlayers := (players.drop start).take LB_PAGE_SIZE
  { totalPages := totalPages,
    currentPage := currentPage,
    entries := pagePlayers.enum.map (fun pr => (start + pr.1 + 1, pr.2)) }

theorem enum_rank_map_fst (l : List Player) (st : Nat) :
    (l.enum.map (fun pr => (st + pr.1 + 1, pr.2))).map Prod.fst
      = (List.range ((l.enum.map (fun pr => (st + pr.1 + 1, pr.2))).length)).map
          (fun k => st + k + 1) := by
  rw [List.map_map, List.length_map, List.enum_length]
  have h1 : (Prod.fst ∘ fun pr : Nat × Player => (st + pr.1 + 1, pr.2))
      = (fun k => st + k + 1) ∘ Prod.fst := rfl
  rw [h1, ← List.map_map, List.enum_map_fst]

theorem enum_rank_map_snd (l : List Player) (st : Nat) :
    (l.enum.map (fun pr => (st + pr.1 + 1, pr.2))).map Prod.snd = l := by
  rw [List.map_map]
  have h1 : (Prod.snd ∘ fun pr : Nat × Player => (st + pr.1 + 1, pr.2))
      = (Prod.snd : Nat × Player → Player) := rfl
  rw [h1, List.enum_map_snd]

/-- Claim C6: the leaderboard clamps the requested page into
`[0, totalPages - 1]` with `totalPages = max(1, ceil(activeCount / 5))`, each
entry carries its 1-based global rank `page * 5 + position + 1`, the page
contains the corresponding slice of the sorted list, and in particular 12
active players with requested page 3 yield page 2 holding exactly ranks 11
and 12. -/
theorem c6_leaderboard_paging (players : List Player) (page : Int) :
    (buildLbPage players page).totalPages = max 1 ((players.length + 4) / 5)
    ∧ ((buildLbPage players page).currentPage : Int)
        = min (max page 0) (((buildLbPage players page).totalPages : Int) - 1)
    ∧ (buildLbPage players page).entries.map Prod.fst
        = (List.range ((buildLbPage players page).entries.length)).map
            (fun k => (buildLbPage players page).currentPage * 5 + k + 1)
    ∧ (buildLbPage players page).entries.map Prod.snd
        = (players.drop ((buildLbPage players page).currentPage * 5)).take 5
    ∧ (players.length = 12 → page = 3 →
        (buildLbPage players page).totalPages = 3
        ∧ (buildLbPage players page).currentPage = 2
        ∧ (buildLbPage players page).entries.map Prod.fst = [11, 12]) := by
  unfold buildLbPage LB_PAGE_SIZE
  dsimp only
  refine ⟨rfl, ?_, ?_, ?_, ?_⟩
  · generalize hn : max 1 ((players.length + 5 - 1) / 5) = n
    have hn1 : 1 ≤ n := by
      rw [← hn]
      exact le_max_left _ _
    split_ifs <;> omega
  · rw [enum_rank_map_fst]
  · rw [enum_rank_map_snd]
  · intro h12 hp3
    subst hp3
    rw [h12]
    have hcp : ((if ((if (3 : Int) < 0 then 0 else 3)) > ((max 1 ((12 + 5 - 1) / 5) : Nat) : Int) - 1
        then ((max 1 ((12 + 5 - 1) / 5) : Nat) : Int) - 1
        else (if (3 : Int) < 0 then 0 else 3)).toNat) = 2 := by decide
    rw [hcp]
    refine ⟨by decide, rfl, ?_⟩
    rw [enum_rank_map_fst]
    have hlen : ((players.drop (2 * 5)).take 5).length = 2 := by
      rw [List.length_take, List.length_drop, h12]
      omega
    rw [List.length_map, List.enum_length, hlen]
    rfl

/-- Witness for C6: twelve concrete active players with requested page 3 are
clamped to page 2 with global ranks 11 and 12. -/
theorem c6_leaderboard_paging_witness :
    (List.replicate 12 (wPlayer "x")).length = 12
    ∧ (buildLbPage (List.replicate 12 (wPlayer "x")) 3).totalPages = 3
    ∧ (buildLbPage (List.replicate 12 (wPlayer "x")) 3).currentPage = 2
    ∧ (buildLbPage (List.replicate 12 (wPlayer "x")) 3).entries.map Prod.fst = [11, 12] := by
  have h := (c6_leaderboard_paging (List.replicate 12 (wPlayer "x")) 3).2.2.2.2 (by simp) rfl
  exact ⟨by simp, h.1, h.2.1, h.2.2⟩

/-- The global oracle-rate state (`solPriceUsd`, `solPriceUpdatedAt`). -/
structure PriceState where
  solPriceUsd : Option ℚ
  solPriceUpdatedAt : Option Int
deriving DecidableEq, Repr

/-- Observable content of `solPriceStatusLine` (src/index.js lines 94-99):
`none` is the unavailable notice (price or timestamp falsy), otherwise the
displayed price and cache timestamp. -/
def solPriceStatusData (st : PriceState) : Option (ℚ × Int) :=
  match st.solPriceUsd, st.solPriceUpdatedAt with
  | some p, some t => if p = 0 then none else some (p, t)
  | _, _ => none

/-- Observable content of one rendered leaderboard entry
(src/index.js lines 303-318). -/
structure LbEntry where
  rank : Nat
  name : String
  roundedSize : Option Int
  usd : Option ℚ
deriving DecidableEq, Repr

/-- Observable content of the embed built by `buildLbEmbed`
(src/index.js lines 277-348): header data, entries, the empty-page note and
which pagination buttons are attached. -/
structure LbView where
  label : String
  lobbyNum : Nat
  region : String
  playerCountLine : Int
  priceLine : Option (ℚ × Int)
  dataPulled : Int
  pageNum : Nat
  totalPages : Nat
  entries : List LbEntry
  emptyNote : Bool
  hasPrev : Bool
  hasNext : Bool
deriving DecidableEq, Repr

/-- Embedding of `buildLbEmbed` (src/index.js lines 277-348) as a function of the oracle
state, the clock (read only through `snapshot.lastFetched || Date.now()`),
the lobby, the snapshot, the pre-filtered sorted player list and the
requested page. -/
def buildLbEmbed (st : PriceState) (now : Int) (lobbyDef : LobbyDef)
    (snapshot : Snapshot) (players : List Player) (page : Int) : LbView :=
  let pg := buildLbPage players page
  { label := lobbyDef.label,
    lobbyNum := lobbyDef.lobby,
    region := lobbyDef.region,
    playerCountLine := snapshot.playerCount,
    priceLine := solPriceStatusData st,
    dataPulled := snapshot.lastFetched.getD now,
    pageNum := pg.currentPage + 1,
    totalPages := pg.totalPages,
    entries := pg.entries.map (fun pr =>
      { rank := pr.1, name := displayName pr.2,
        roundedSize := pr.2.size.map jsRound, usd := pr.2.usdFromSol }),
    emptyNote := pg.entries.isEmpty,
    hasPrev := decide (0 < pg.currentPage),
    hasNext := decide (pg.currentPage < pg.totalPages - 1) }

/-- The embed builder as a transformer of the global oracle state: the source
function reads `solPriceUsd` / `solPriceUpdatedAt` and writes nothing, which
returning the state unchanged makes explicit. -/
def buildLbEmbedRun (st : PriceState) (now : Int) (lobbyDef : LobbyDef)
    (snapshot : Snapshot) (players : List Player) (page : Int) : LbView × PriceState :=
  (buildLbEmbed st now lobbyDef snapshot players page, st)

/-- Claim C9: for a snapshot carrying its fetch timestamp (as every snapshot
written by the fetcher does), rendering the leaderboard twice with the same
snapshot, player list, page and oracle state yields identical output at any
two clock readings, and rendering leaves the oracle state unchanged. -/
theorem c9_leaderboard_pure (st : PriceState) (now1 now2 : Int)
    (lobbyDef : LobbyDef) (snapshot : Snapshot) (players : List Player)
    (page : Int) (h : snapshot.lastFetched.isSome = true) :
    buildLbEmbedRun st now1 lobbyDef snapshot players page
      = buildLbEmbedRun st now2 lobbyDef snapshot players page
    ∧ (buildLbEmbedRun st now1 lobbyDef snapshot players page).2 = st := by
  obtain ⟨t, ht⟩ := Option.isSome_iff_exists.mp h
  unfold buildLbEmbedRun buildLbEmbed
  rw [ht]
  exact ⟨rfl, rfl⟩

/-- Witness for C9: rendering the same concrete snapshot at clock readings
111 and 222 gives identical views and preserves the oracle state. -/
theorem c9_leaderboard_pure_witness :
    wS1.lastFetched.isSome = true
    ∧ buildLbEmbedRun { solPriceUsd := some 100, solPriceUpdatedAt := some 0 }
        111 wL1 wS1 wS1.players 0
      = buildLbEmbedRun { solPriceUsd := some 100, solPriceUpdatedAt := some 0 }
        222 wL1 wS1 wS1.players 0
    ∧ (buildLbEmbedRun { solPriceUsd := some 100, solPriceUpdatedAt := some 0 }
        111 wL1 wS1 wS1.players 0).2
      = { solPriceUsd := some 100, solPriceUpdatedAt := some 0 } := by
  have h := c9_leaderboard_pure
    { solPriceUsd := some 100, solPriceUpdatedAt := some 0 }
    111 222 wL1 wS1 wS1.players 0 rfl
  exact ⟨rfl, h.1, h.2⟩

/-- Snapshot whose reported `playerCount` (7) differs from its size-filtered
active count (1), for the C7 counterexample. -/
def wS7 : Snapshot :=
  { serverId := "us-1", playerCount := 7, players := [wPlayer "a"],
    timestamp := 0, lastFetched := some 0, noApi := false }

/-- Watch with threshold 5, for the C7 counterexample. -/
def wW7 : Watch :=
  { id := 1, lobbyKey := "us-1", threshold := 5, intervalMinutes := 1, lastAlertAt := none }

/-- Counterexample for C7: in the part_000 variant the watch fires on the
reported player count (7) although only one player passes the size > 3
filter that the join-diff detector uses, so that variant's watch count is
not the threshold-filtered active count. -/
theorem c7_threshold_counterexample :
    (processWatchV0 (some wS7) wW7 0).1 = true
    ∧ ((wS7.players.filter joinIsActive).length : Int) < wW7.threshold := by
  constructor
  · rfl
  · decide

/-- Claim C7 amended: the index.js and part_001 watch evaluator counts
exactly the players passing the same size > 3 filter as the join-diff
detector (firing only when that count meets the threshold, and unchanged
below it); the part_000 variant instead compares the snapshot's raw
`playerCount` field against the threshold. -/
theorem c7_same_threshold_v1 (s : Snapshot) (w : Watch) (now : Int)
    (hapi : s.noApi = false) :
    s.players.filter watchIsActive = s.players.filter joinIsActive
    ∧ ((processWatch (some s) w now).1 = true →
        w.threshold ≤ ((s.players.filter joinIsActive).length : Int))
    ∧ (((s.players.filter joinIsActive).length : Int) < w.threshold →
        processWatch (some s) w now = (false, w))
    ∧ ((processWatchV0 (some s) w now).1 = true → w.threshold ≤ s.playerCount) := by
  have hfe : s.players.filter watchIsActive = s.players.filter joinIsActive := rfl
  refine ⟨hfe, ?_, ?_, ?_⟩
  · intro hfired
    by_contra hlt
    rw [not_le] at hlt
    have : processWatch (some s) w now = (false, w) := by
      unfold processWatch
      simp only [hapi, Bool.false_eq_true, if_false]
      rw [hfe, if_pos hlt]
    rw [this] at hfired
    exact Bool.false_ne_true hfired
  · intro hlt
    unfold processWatch
    simp only [hapi, Bool.false_eq_true, if_false]
    rw [hfe, if_pos hlt]
  · intro hfired
    by_contra hlt
    rw [not_le] at hlt
    have hcnt : (if s.playerCount = 0 then 0 else s.playerCount) < w.threshold := by
      by_cases h0 : s.playerCount = 0
      · rw [if_pos h0]
        omega
      · rw [if_neg h0]
        exact hlt
    have : processWatchV0 (some s) w now = (false, w) := by
      unfold processWatchV0
      dsimp only
      rw [if_pos hcnt]
    rw [this] at hfired
    exact Bool.false_ne_true hfired

/-- Witness for the amended C7: on a concrete supported snapshot the
index.js/part_001 evaluator uses the join-diff filter (here one active
player, below threshold 5, so no fire and no state change). -/
theorem c7_same_threshold_v1_witness :
    wS7.noApi = false
    ∧ wS7.players.filter watchIsActive = wS7.players.filter joinIsActive
    ∧ processWatch (some wS7) wW7 0 = (false, wW7) := by
  have h := c7_same_threshold_v1 wS7 wW7 0 rfl
  exact ⟨rfl, h.1, h.2.2.1 (by decide)⟩

/-- JS `x || null` on a nullable string field: the empty string is falsy. -/
def jsStrOrNull (o : Option String) : Option String :=
  match o with
  | some s => if s = "" then none else some s
  | none => none

/-- In-memory per-guild configuration (src/unnamed/part_001
`getGuildConfig`, lines 318-336).  Maps are association lists; the watches
map is kept in insertion order with each watch carrying its own id key. -/
structure GuildConfig where
  alertChannelId : Option String
  alertEnabled : List (String × Bool)
  lastSeenPlayers : List (String × List String)
  watches : List Watch
  nextWatchId : Nat
  pingRoleId : Option String
  defaultRegion : Option String
  refreshChannelId : Option String
  lastRefreshMessageId : Option String
deriving DecidableEq, Repr

/-- One guild's persisted record (src/unnamed/part_001
`saveGuildConfigsToDisk`, lines 289-303): by construction it has no
last-seen-players and no last-refresh-message field. -/
structure StoredGuildConfig where
  alertChannelId : Option String
  alertEnabled : List (String × Bool)
  watches : List Watch
  nextWatchId : Nat
  pingRoleId : Option String
  defaultRegion : Option String
  refreshChannelId : Option String
deriving DecidableEq, Repr

/-- Embedding of `saveGuildConfigsToDisk` for one guild (src/unnamed/part_001 lines
285-316): serializes channel/role/region references, the alert-enabled map,
the watches (id, lobbyKey, threshold, intervalMinutes, lastAlertAt as ISO
timestamp or null) and the next watch id. -/
def saveGuildConfig (cfg : GuildConfig) : StoredGuildConfig :=
  { alertChannelId := jsStrOrNull cfg.alertChannelId,
    alertEnabled := cfg.alertEnabled,
    watches := cfg.watches.map (fun w =>
      { id := w.id, lobbyKey := w.lobbyKey, threshold := w.threshold,
        intervalMinutes := w.intervalMinutes, lastAlertAt := w.lastAlertAt }),
    nextWatchId := if cfg.nextWatchId = 0 then 1 else cfg.nextWatchId,
    pingRoleId := jsStrOrNull cfg.pingRoleId,
    defaultRegion := jsStrOrNull cfg.defaultRegion,
    refreshChannelId := jsStrOrNull cfg.refreshChannelId }

/-- Embedding of `loadGuildConfigsFromDisk` for one guild (src/unnamed/part_001 lines
248-275): restores the persisted fields, rebuilds the watches map from the
stored array, and resets `lastSeenPlayers` to empty and
`lastRefreshMessageId` to null (both runtime-only). -/
def loadGuildConfig (stored : StoredGuildConfig) : GuildConfig :=
  { alertChannelId := jsStrOrNull stored.alertChannelId,
    alertEnabled := stored.alertEnabled,
    lastSeenPlayers := [],
    watches := stored.watches.map (fun w =>
      { id := w.id, lobbyKey := w.lobbyKey, threshold := w.threshold,
        intervalMinutes := w.intervalMinutes, lastAlertAt := w.lastAlertAt }),
    nextWatchId := if stored.nextWatchId = 0 then 1 else stored.nextWatchId,
    pingRoleId := jsStrOrNull stored.pingRoleId,
    defaultRegion := jsStrOrNull stored.defaultRegion,
    refreshChannelId := jsStrOrNull stored.refreshChannelId,
    lastRefreshMessageId := none }

theorem jsStrOrNull_of_ne {o : Option String} (ho : o ≠ some "") :
    jsStrOrNull o = o := by
  cases o with
  | none => rfl
  | some s =>
      unfold jsStrOrNull
      dsimp only
      rw [if_neg]
      intro hs
      exact ho (by rw [hs])

/-- Claim C8: the serialized tenant configuration does not depend on the
derived last-seen sets, and a save/load round trip restores the alert
channel, alert-enabled map, watches with their `lastAlertAt`, next watch id,
ping role, default region and refresh channel while resetting the last-seen
sets to empty (the runtime-only last-refresh message id is also reset). -/
theorem c8_persistence_roundtrip (cfg : GuildConfig)
    (hnid : cfg.nextWatchId ≠ 0)
    (hch : cfg.alertChannelId ≠ some "") (hrole : cfg.pingRoleId ≠ some "")
    (hreg : cfg.defaultRegion ≠ some "") (href : cfg.refreshChannelId ≠ some "") :
    (∀ ls, saveGuildConfig { cfg with lastSeenPlayers := ls } = saveGuildConfig cfg)
    ∧ loadGuildConfig (saveGuildConfig cfg)
        = { cfg with lastSeenPlayers := [], lastRefreshMessageId := none } := by
  constructor
  · intro ls
    rfl
  · unfold loadGuildConfig saveGuildConfig
    dsimp only
    rw [jsStrOrNull_of_ne hch, jsStrOrNull_of_ne hch,
      jsStrOrNull_of_ne hrole, jsStrOrNull_of_ne hrole,
      jsStrOrNull_of_ne hreg, jsStrOrNull_of_ne hreg,
      jsStrOrNull_of_ne href, jsStrOrNull_of_ne href,
      if_neg hnid, if_neg hnid, List.map_map]
    have hw : ((fun w : Watch =>
        ({ id := w.id, lobbyKey := w.lobbyKey, threshold := w.threshold,
           intervalMinutes := w.intervalMinutes, lastAlertAt := w.lastAlertAt } : Watch))
        ∘ (fun w : Watch =>
        ({ id := w.id, lobbyKey := w.lobbyKey, threshold := w.threshold,
           intervalMinutes := w.intervalMinutes, lastAlertAt := w.lastAlertAt } : Watch)))
        = id := rfl
    rw [hw, List.map_id]

/-- Concrete tenant configuration for the C8 witness. -/
def wCfg : GuildConfig :=
  { alertChannelId := some "chan1",
    alertEnabled := [("us-5", true), ("eu-20", false)],
    lastSeenPlayers := [("us-5", ["A", "B"])],
    watches := [wW1, wW7],
    nextWatchId := 3,
    pingRoleId := some "role1",
    defaultRegion := some "us",
    refreshChannelId := none,
    lastRefreshMessageId := some "msg9" }

/-- Witness for C8: a concrete configuration's serialized form ignores the
last-seen sets and the save/load round trip restores the persisted fields
with the last-seen sets reset to empty. -/
theorem c8_persistence_roundtrip_witness :
    wCfg.nextWatchId ≠ 0
    ∧ wCfg.alertChannelId ≠ some "" ∧ wCfg.pingRoleId ≠ some ""
    ∧ wCfg.defaultRegion ≠ some "" ∧ wCfg.refreshChannelId ≠ some ""
    ∧ saveGuildConfig { wCfg with lastSeenPlayers := [] } = saveGuildConfig wCfg
    ∧ loadGuildConfig (saveGuildConfig wCfg)
        = { wCfg with lastSeenPlayers := [], lastRefreshMessageId := none } := by
  have h := c8_persistence_roundtrip wCfg (by decide) (by decide) (by decide)
    (by decide) (by decide)
  exact ⟨by decide, by decide, by decide, by decide, by decide, h.1 [], h.2⟩

end DbDiscord
